import Mathlib

/-!
# bastion: a terminal launcher (`main.go`)

A shallow embedding of `main.go`. The program keeps two globals, `clusters` and
`selectedIndex`, and talks to three outside parties: the termbox terminal
back-end, the operating system (files, child processes, the clock) and the Go
runtime (process exit, panics). The embedding keeps the globals in a `World`
record together with a chronological trace of the calls made to the outside
parties; every answer the outside gives (terminal width, result of `cmd.Run`,
result of `termbox.Init`, result of reading and parsing the file) is an explicit
input.

Go `int` is modelled by `Int`; every number that occurs is a list length, a
terminal coordinate or a byte offset, far from the 64-bit range.
-/

namespace Bastion

/-! ## Data model -/

/-- Go `type Cluster struct`: a name and a shell command. -/
structure Cluster where
  Name : String
  Command : String
deriving DecidableEq, Repr

/-- Go `type Config struct`: the parsed configuration file. -/
structure Config where
  Clusters : List Cluster
deriving DecidableEq, Repr

/-- The termbox colour attributes that `main.go` names. They are distinct
constants of the library. -/
inductive Attribute where
  | ColorDefault
  | ColorBlack
  | ColorGreen
  | ColorBlue
  | ColorCyan
  | ColorWhite
  | ColorLightGray
deriving DecidableEq, Repr

/-- Calls made to the outside world, in the order in which they happen. -/
inductive Effect where
  /-- The call `termbox.Init()`. -/
  | init
  /-- The call `termbox.Close()`. -/
  | close
  /-- The call `termbox.Clear(ColorDefault, ColorDefault)`. -/
  | clear
  /-- The call `termbox.SetCell(x, y, ch, fg, bg)`. -/
  | setCell (x y : Int) (ch : Char) (fg bg : Attribute)
  /-- The call `termbox.Flush()`. -/
  | flush
  /-- The call `cmd.Run()` of `bash -c command` with the standard streams inherited. -/
  | runCmd (command : String)
  /-- A call of `fmt.Printf` or `fmt.Println`: the text written to standard output. -/
  | print (text : String)
  /-- The call `time.Sleep(seconds * time.Second)`. -/
  | sleep (seconds : Nat)
  /-- The call `os.Exit(code)`. -/
  | osExit (code : Int)
deriving DecidableEq, Repr

/-- Why the Go runtime aborted the process. -/
inductive PanicReason where
  /-- The read `clusters[selectedIndex]` with the index out of range. -/
  | indexOutOfRange
  /-- The `panic(err)` after a failed `termbox.Init()` in `main`. -/
  | initError (err : String)
  /-- The `panic(ev.Err)` in the event loop. -/
  | eventError (err : String)
deriving DecidableEq, Repr

/-- Whether the process is still running, and how it ended otherwise. -/
inductive Status where
  | running
  /-- The process ended through `os.Exit(code)`. -/
  | exited (code : Int)
  /-- The function `main` returned normally. -/
  | returned
  /-- The process ended through a panic that nobody recovers. -/
  | panicked (reason : PanicReason)
deriving DecidableEq, Repr

/-- The exit status the operating system sees: `os.Exit(c)` gives `c`, a normal
return of `main` gives `0`, an unrecovered panic gives `2` (Go runtime). A
running process has none. -/
def Status.exitCode : Status → Option Int
  | .running => none
  | .exited c => some c
  | .returned => some 0
  | .panicked _ => some 2

/-- The globals of `main.go`, the state of the terminal session and the trace
of outside calls. -/
structure World where
  /-- Go `var clusters []Cluster`. -/
  clusters : List Cluster
  /-- Go `var selectedIndex = 0`. -/
  selectedIndex : Int
  /-- Whether a termbox session is open. -/
  isInit : Bool
  /-- Calls to the outside so far, oldest first. -/
  trace : List Effect
  status : Status
deriving DecidableEq, Repr

/-- Go `var timeoutDuration = 3600 * time.Second`, in seconds. -/
def timeoutDuration : Nat := 3600

/-! ## termbox keys and events -/

/-- The termbox key code `KeyArrowUp` (`0xFFFF - 18`). -/
def KeyArrowUp : Nat := 0xFFFF - 18
/-- The termbox key code `KeyArrowDown` (`0xFFFF - 19`). -/
def KeyArrowDown : Nat := 0xFFFF - 19
/-- The termbox key code `KeyEnter`. -/
def KeyEnter : Nat := 0x0D
/-- The termbox key code `KeyEsc`. -/
def KeyEsc : Nat := 0x1B

/-- The kind of a termbox event. -/
inductive EventType where
  | EventKey
  | EventError
  /-- Resize, mouse, interrupt, raw and none events. -/
  | EventOther
deriving DecidableEq, Repr

/-- The fields of `termbox.Event` that `main.go` reads. `Key = 0` means that no
special key is set, `Ch` is the typed character (`'\x00'` when there is none). -/
structure Event where
  Typ : EventType
  Key : Nat
  Ch : Char
  Err : String
deriving DecidableEq, Repr

/-- What the outside answers while one event is handled. -/
structure Env where
  /-- The width `termbox.Size()` reports while the menu is drawn: one value for
  the two calls inside one `drawMenu`, which happen between its `Clear` and its
  `Flush`. -/
  width : Int
  /-- The error `cmd.Run()` returns: `none` is Go `nil`. -/
  runErr : Option String
  /-- Whether `ctx.Err() == context.DeadlineExceeded` after `cmd.Run()`. -/
  deadlineExceeded : Bool
  /-- Whether the `termbox.Init()` of `handleTimeout` succeeds. -/
  timeoutInitOk : Bool
  /-- Whether the `termbox.Init()` at the end of `executeCommand` succeeds. -/
  initOk : Bool
deriving DecidableEq, Repr

/-! ## termbox session -/

/-- The call `termbox.Init()` with the outcome `ok`: a successful call opens the
session; a failed call leaves the session as it was. The caller decides what to
do with the error. -/
def termboxInit (ok : Bool) (w : World) : World :=
  { w with isInit := w.isInit || ok, trace := w.trace ++ [Effect.init] }

/-- The call `termbox.Close()`: the session is released. -/
def termboxClose (w : World) : World :=
  { w with isInit := false, trace := w.trace ++ [Effect.close] }

/-- The call `os.Exit(code)`: the process ends at once. -/
def osExit (code : Int) (w : World) : World :=
  { w with trace := w.trace ++ [Effect.osExit code], status := Status.exited code }

/-- Append outside calls to the trace. -/
def emit (es : List Effect) (w : World) : World :=
  { w with trace := w.trace ++ es }

/-! ## Drawing -/

/-- Go `for i, ch := range text` over a string: the characters of `text`, each
with the byte offset at which its UTF-8 encoding starts, counted from `off`. -/
def rangeString : List Char → Nat → List (Nat × Char)
  | [], _ => []
  | c :: cs, off => (off, c) :: rangeString cs (off + c.utf8Size)

/-- Go `len(text)` of a string: the number of bytes of its UTF-8 encoding. -/
def goLen (text : List Char) : Nat :=
  (text.map Char.utf8Size).sum

/-- Go `printLine(x, y, text, selected)`: one `SetCell` per character, at column
`x + i` for the byte offset `i`, in the colours of the selection state. -/
def printLine (x y : Int) (text : String) (selected : Bool) : List Effect :=
  let fg := if selected then Attribute.ColorWhite else Attribute.ColorBlack
  let bg := if selected then Attribute.ColorBlue else Attribute.ColorLightGray
  (rangeString text.data 0).map fun p => Effect.setCell (x + (p.1 : Int)) y p.2 fg bg

/-- Go `printCenteredLine(y, text, fg, bg)` on a terminal of the given width:
`x := (width - len(text)) / 2` with Go's truncating division, then one `SetCell`
per character at column `x + i` for the byte offset `i`. -/
def printCenteredLine (width : Int) (y : Int) (text : String) (fg bg : Attribute) :
    List Effect :=
  let x := Int.tdiv (width - (goLen text.data : Int)) 2
  (rangeString text.data 0).map fun p => Effect.setCell (x + (p.1 : Int)) y p.2 fg bg

/-- The title string of `drawHeader`. -/
def headerText : String := "集群切换工具"

/-- The instruction string of `drawHeader`. -/
def instructions : String := "使用 ↑ ↓ 键选择，回车执行，Esc 退出，按 'q' 退出"

/-- Go `drawHeader()`: the title on row 1, the instructions on row 2. -/
def drawHeader (width : Int) : List Effect :=
  printCenteredLine width 1 headerText Attribute.ColorCyan Attribute.ColorDefault ++
  printCenteredLine width 2 instructions Attribute.ColorGreen Attribute.ColorDefault

/-- The loop `for i, cluster := range clusters` of `drawMenu`, from index `i`
on: `printLine(2, 3+i, cluster.Name, i == selectedIndex)`. -/
def drawClusters (selectedIndex : Int) : List Cluster → Nat → List Effect
  | [], _ => []
  | c :: cs, i =>
    printLine 2 (3 + (i : Int)) c.Name (decide ((i : Int) = selectedIndex)) ++
      drawClusters selectedIndex cs (i + 1)

/-- The outside calls of `drawMenu()`: clear, header, one line per cluster,
flush. -/
def drawMenuEffects (width : Int) (clusters : List Cluster) (selectedIndex : Int) :
    List Effect :=
  [Effect.clear] ++ drawHeader width ++ drawClusters selectedIndex clusters 0 ++
    [Effect.flush]

/-- Go `drawMenu()`. -/
def drawMenu (width : Int) (w : World) : World :=
  emit (drawMenuEffects width w.clusters w.selectedIndex) w

/-! ## Running the selected command -/

/-- A panic after `main` registered `defer termbox.Close()`: the deferred call
runs, then the runtime aborts the process. -/
def panicInLoop (reason : PanicReason) (w : World) : World :=
  { termboxClose w with status := Status.panicked reason }

/-- The line `handleTimeout` prints. -/
def timeoutMessage : String := "执行超时，请检查网络连接。即将返回集群切换界面...\n"

/-- The line `executeCommand` prints after `cmd.Run()` returned `nil`. -/
def completedMessage : String := "SSH 会话结束。即将返回集群切换界面...\n"

/-- The line `executeCommand` prints after `cmd.Run()` returned an error that is
not a timeout: `fmt.Printf` of the error text. -/
def failedMessage (err : String) : String := "执行命令失败: " ++ err ++ "\n"

/-- Go `handleTimeout()`: print the timeout line, sleep two seconds, call
`termbox.Init()` and drop its result. -/
def handleTimeout (initOk : Bool) (w : World) : World :=
  termboxInit initOk (emit [Effect.print timeoutMessage, Effect.sleep 2] w)

/-- Go `clusters[selectedIndex]`: the element, or nothing when the index is out
of range (the runtime panics then). -/
def clusterAt (clusters : List Cluster) (selectedIndex : Int) : Option Cluster :=
  if 0 ≤ selectedIndex then clusters.get? selectedIndex.toNat else none

/-- Go `executeCommand()`: close termbox, read `clusters[selectedIndex]`, run its
command, report by the error of `cmd.Run()` and by `ctx.Err()`, sleep two seconds,
call `termbox.Init()` and drop its result. -/
def executeCommand (env : Env) (w : World) : World :=
  let w1 := termboxClose w
  match clusterAt w1.clusters w1.selectedIndex with
  | none => panicInLoop PanicReason.indexOutOfRange w1
  | some cluster =>
    let w2 := emit [Effect.runCmd cluster.Command] w1
    let w3 :=
      match env.runErr with
      | some err =>
        if env.deadlineExceeded then handleTimeout env.timeoutInitOk w2
        else emit [Effect.print (failedMessage err)] w2
      | none => emit [Effect.print completedMessage] w2
    termboxInit env.initOk (emit [Effect.sleep 2] w3)

/-! ## The key handler and the event loop -/

/-- The last statement of `handleKeyEvent`: `q` or `Q` closes termbox and exits
with status 0. -/
def quitOnCh (ev : Event) (w : World) : World :=
  if ev.Ch = 'q' ∨ ev.Ch = 'Q' then osExit 0 (termboxClose w) else w

/-- Go `handleKeyEvent(ev, functionSelector)`: the `switch ev.Key`, then the test
of `ev.Ch`. A branch that ended the process does not reach the test. -/
def handleKeyEvent (ev : Event) (env : Env) (w : World) : World :=
  if ev.Key = KeyArrowUp then
    let w1 := if w.selectedIndex > 0 then { w with selectedIndex := w.selectedIndex - 1 } else w
    quitOnCh ev (drawMenu env.width w1)
  else if ev.Key = KeyArrowDown then
    let w1 :=
      if w.selectedIndex < (w.clusters.length : Int) - 1 then
        { w with selectedIndex := w.selectedIndex + 1 }
      else w
    quitOnCh ev (drawMenu env.width w1)
  else if ev.Key = KeyEnter then
    let w1 := executeCommand env w
    match w1.status with
    | Status.running => quitOnCh ev (drawMenu env.width w1)
    | _ => w1
  else if ev.Key = KeyEsc then
    osExit 0 (termboxClose w)
  else
    quitOnCh ev w

/-- One turn of the event loop of `main`: a key event goes to `handleKeyEvent`,
an error event panics, every other event is dropped. -/
def handleEvent (ev : Event) (env : Env) (w : World) : World :=
  match ev.Typ with
  | EventType.EventKey => handleKeyEvent ev env w
  | EventType.EventError => panicInLoop (PanicReason.eventError ev.Err) w
  | EventType.EventOther => w

/-- The event loop of `main` over the events the terminal delivers, each with the
answers of the outside while it is handled. The loop ends with the process. -/
def eventLoop : List (Event × Env) → World → World
  | [], w => w
  | (ev, env) :: rest, w =>
    match w.status with
    | Status.running => eventLoop rest (handleEvent ev env w)
    | _ => w

/-! ## Start-up -/

/-- What the outside answers during start-up. Errors carry their text. -/
structure StartEnv where
  /-- The result of `user.Current()`: the home directory. -/
  currentUser : Except String String
  /-- The function `filepath.Join`. -/
  join : List String → String
  /-- The result of `ioutil.ReadFile(path)`. -/
  readFile : String → Except String String
  /-- The result of `yaml.Unmarshal(data, &config)`. -/
  unmarshal : String → Except String Config
  /-- The result of `termbox.Init()` in `main`: `none` is Go `nil`. -/
  initErr : Option String
  /-- The width `termbox.Size()` reports while the first menu is drawn. -/
  width : Int

/-- Go `loadConfig()`: the error it returns, or the clusters it stores in the
global `clusters`. -/
def loadConfig (env : StartEnv) : Except String (List Cluster) :=
  match env.currentUser with
  | .error err => .error err
  | .ok homeDir =>
    let configPath := env.join [homeDir, ".s", "s.yaml"]
    match env.readFile configPath with
    | .error err => .error ("读取配置文件 " ++ configPath ++ " 失败: " ++ err)
    | .ok data =>
      match env.unmarshal data with
      | .error err => .error ("解析配置文件失败: " ++ err)
      | .ok config => .ok config.Clusters

/-- The process before `main` runs: no clusters, `selectedIndex = 0`, no termbox
session, nothing done yet. -/
def initialWorld : World :=
  { clusters := [], selectedIndex := 0, isInit := false, trace := [],
    status := Status.running }

/-- Go `main()` up to the event loop: load the configuration (on failure print
and return), initialise termbox (on failure panic, before the `defer`), draw the
first menu. -/
def mainStart (env : StartEnv) : World :=
  match loadConfig env with
  | .error err =>
    { emit [Effect.print ("加载配置文件失败: " ++ err ++ "\n")] initialWorld with
      status := Status.returned }
  | .ok cs =>
    let w := { initialWorld with clusters := cs }
    match env.initErr with
    | some err =>
      { termboxInit false w with status := Status.panicked (PanicReason.initError err) }
    | none => drawMenu env.width (termboxInit true w)

/-- Go `main()`: start-up, then the event loop. -/
def main (env : StartEnv) (events : List (Event × Env)) : World :=
  eventLoop events (mainStart env)

/-! ## The child process -/

/-- How the child process of `cmd.Run()` ends. -/
inductive ChildOutcome where
  /-- The child was started and exited by itself with this status, before the
  deadline. -/
  | exited (status : Nat)
  /-- The child could not be started; the operating system gave this reason. -/
  | launchFailed (detail : String)
  /-- The deadline of the context passed and the child was killed. -/
  | deadlineKilled
deriving DecidableEq, Repr

/-- The contract of `os/exec` and `context`: `cmd.Run()` returns `nil` exactly when
the child ran and exited with status 0, an `*ExitError` ("exit status n") when it
exited with another status, the launch error when it could not be started, and
"signal: killed" with `ctx.Err() == context.DeadlineExceeded` when the deadline
killed it. The result is the pair `(err, ctx.Err() == DeadlineExceeded)`. -/
def cmdRun : ChildOutcome → Option String × Bool
  | .exited 0 => (none, false)
  | .exited (n + 1) => (some ("exit status " ++ toString (n + 1)), false)
  | .launchFailed detail => (some detail, false)
  | .deadlineKilled => (some "signal: killed", true)

/-- The answers of the outside for one event when the child ends as `c`. -/
def envOfChild (c : ChildOutcome) (width : Int) (timeoutInitOk initOk : Bool) : Env :=
  { width := width, runErr := (cmdRun c).1, deadlineExceeded := (cmdRun c).2,
    timeoutInitOk := timeoutInitOk, initOk := initOk }

/-! ## Auxiliary facts -/

@[simp] theorem drawMenu_clusters (width : Int) (w : World) :
    (drawMenu width w).clusters = w.clusters := rfl

@[simp] theorem drawMenu_selectedIndex (width : Int) (w : World) :
    (drawMenu width w).selectedIndex = w.selectedIndex := rfl

@[simp] theorem drawMenu_status (width : Int) (w : World) :
    (drawMenu width w).status = w.status := rfl

@[simp] theorem drawMenu_isInit (width : Int) (w : World) :
    (drawMenu width w).isInit = w.isInit := rfl

@[simp] theorem quitOnCh_clusters (ev : Event) (w : World) :
    (quitOnCh ev w).clusters = w.clusters := by
  unfold quitOnCh; split <;> rfl

@[simp] theorem quitOnCh_selectedIndex (ev : Event) (w : World) :
    (quitOnCh ev w).selectedIndex = w.selectedIndex := by
  unfold quitOnCh; split <;> rfl

theorem quitOnCh_status (ev : Event) (w : World) :
    (quitOnCh ev w).status = w.status ∨ (quitOnCh ev w).status = Status.exited 0 := by
  unfold quitOnCh; split
  · right; rfl
  · left; rfl

theorem quitOnCh_of_ne (ev : Event) (w : World) (hq : ev.Ch ≠ 'q') (hQ : ev.Ch ≠ 'Q') :
    quitOnCh ev w = w := by
  unfold quitOnCh; simp [hq, hQ]

@[simp] theorem executeCommand_clusters (env : Env) (w : World) :
    (executeCommand env w).clusters = w.clusters := by
  unfold executeCommand
  simp only []
  split
  · rfl
  · split
    · split <;> rfl
    · rfl

@[simp] theorem executeCommand_selectedIndex (env : Env) (w : World) :
    (executeCommand env w).selectedIndex = w.selectedIndex := by
  unfold executeCommand
  simp only []
  split
  · rfl
  · split
    · split <;> rfl
    · rfl

theorem clusterAt_isSome (cs : List Cluster) (i : Int) (h0 : 0 ≤ i)
    (h1 : i < (cs.length : Int)) : ∃ c, clusterAt cs i = some c := by
  have hlt : i.toNat < cs.length := by omega
  refine ⟨cs.get ⟨i.toNat, hlt⟩, ?_⟩
  unfold clusterAt
  rw [if_pos h0]
  exact List.get?_eq_get hlt

/-- With the index in range `executeCommand` runs to its end: the process is
still running and the status is the one before. -/
theorem executeCommand_status (env : Env) (w : World) (h0 : 0 ≤ w.selectedIndex)
    (h1 : w.selectedIndex < (w.clusters.length : Int)) :
    (executeCommand env w).status = w.status := by
  obtain ⟨c, hc⟩ := clusterAt_isSome w.clusters w.selectedIndex h0 h1
  unfold executeCommand
  simp only []
  have hc2 : clusterAt (termboxClose w).clusters (termboxClose w).selectedIndex = some c := hc
  rw [hc2]
  simp only []
  split
  · split <;> rfl
  · rfl

/-- The cursor is inside the list and the process did not die of an index out
of range. -/
def CursorInv (w : World) : Prop :=
  0 ≤ w.selectedIndex ∧ w.selectedIndex < (w.clusters.length : Int) ∧
    w.status ≠ Status.panicked PanicReason.indexOutOfRange

theorem handleKeyEvent_clusters (ev : Event) (env : Env) (w : World) :
    (handleKeyEvent ev env w).clusters = w.clusters := by
  unfold handleKeyEvent
  split
  · simp only [quitOnCh_clusters, drawMenu_clusters]; split <;> rfl
  · split
    · simp only [quitOnCh_clusters, drawMenu_clusters]; split <;> rfl
    · split
      · simp only []
        split
        · simp
        · simp
      · split
        · rfl
        · simp

theorem handleKeyEvent_up (ev : Event) (env : Env) (w : World) (hk : ev.Key = KeyArrowUp) :
    (handleKeyEvent ev env w).selectedIndex =
      if w.selectedIndex > 0 then w.selectedIndex - 1 else w.selectedIndex := by
  unfold handleKeyEvent
  rw [if_pos hk]
  simp only [quitOnCh_selectedIndex, drawMenu_selectedIndex]
  split <;> rfl

theorem handleKeyEvent_down (ev : Event) (env : Env) (w : World) (hk : ev.Key = KeyArrowDown) :
    (handleKeyEvent ev env w).selectedIndex =
      if w.selectedIndex < (w.clusters.length : Int) - 1 then w.selectedIndex + 1
      else w.selectedIndex := by
  have hne : ev.Key ≠ KeyArrowUp := by rw [hk]; decide
  unfold handleKeyEvent
  rw [if_neg hne, if_pos hk]
  simp only [quitOnCh_selectedIndex, drawMenu_selectedIndex]
  split <;> rfl

theorem handleKeyEvent_selectedIndex_other (ev : Event) (env : Env) (w : World)
    (hu : ev.Key ≠ KeyArrowUp) (hd : ev.Key ≠ KeyArrowDown) :
    (handleKeyEvent ev env w).selectedIndex = w.selectedIndex := by
  unfold handleKeyEvent
  rw [if_neg hu, if_neg hd]
  split
  · simp only []
    split
    · simp
    · simp
  · split
    · rfl
    · simp

theorem handleKeyEvent_status (ev : Event) (env : Env) (w : World)
    (h : CursorInv w) :
    (handleKeyEvent ev env w).status ≠ Status.panicked PanicReason.indexOutOfRange := by
  obtain ⟨h0, h1, h2⟩ := h
  have hq : ∀ v : World, v.status = w.status →
      (quitOnCh ev v).status ≠ Status.panicked PanicReason.indexOutOfRange := by
    intro v hv
    rcases quitOnCh_status ev v with h | h
    · rw [h, hv]; exact h2
    · rw [h]; simp
  unfold handleKeyEvent
  split
  · apply hq; simp only [drawMenu_status]; split <;> rfl
  · split
    · apply hq; simp only [drawMenu_status]; split <;> rfl
    · split
      · have hs := executeCommand_status env w h0 h1
        simp only []
        split
        · apply hq; simp only [drawMenu_status]; exact hs
        · rw [hs]; exact h2
      · split
        · simp [osExit]
        · exact hq w rfl

theorem handleKeyEvent_inv (ev : Event) (env : Env) (w : World) (h : CursorInv w) :
    CursorInv (handleKeyEvent ev env w) := by
  have hs := handleKeyEvent_status ev env w h
  obtain ⟨h0, h1, _⟩ := h
  refine ⟨?_, ?_, hs⟩
  · by_cases hu : ev.Key = KeyArrowUp
    · rw [handleKeyEvent_up ev env w hu]; split <;> omega
    · by_cases hd : ev.Key = KeyArrowDown
      · rw [handleKeyEvent_down ev env w hd]; split <;> omega
      · rw [handleKeyEvent_selectedIndex_other ev env w hu hd]; exact h0
  · rw [handleKeyEvent_clusters]
    by_cases hu : ev.Key = KeyArrowUp
    · rw [handleKeyEvent_up ev env w hu]; split <;> omega
    · by_cases hd : ev.Key = KeyArrowDown
      · rw [handleKeyEvent_down ev env w hd]; split <;> omega
      · rw [handleKeyEvent_selectedIndex_other ev env w hu hd]; exact h1

theorem handleEvent_inv (ev : Event) (env : Env) (w : World) (h : CursorInv w) :
    CursorInv (handleEvent ev env w) := by
  unfold handleEvent
  split
  · exact handleKeyEvent_inv ev env w h
  · obtain ⟨h0, h1, _⟩ := h
    exact ⟨h0, h1, by simp [panicInLoop]⟩
  · exact h

theorem handleEvent_clusters (ev : Event) (env : Env) (w : World) :
    (handleEvent ev env w).clusters = w.clusters := by
  unfold handleEvent
  split
  · exact handleKeyEvent_clusters ev env w
  · rfl
  · rfl

theorem eventLoop_inv (events : List (Event × Env)) (w : World) (h : CursorInv w) :
    CursorInv (eventLoop events w) := by
  induction events generalizing w with
  | nil => exact h
  | cons p rest ih =>
    obtain ⟨ev, env⟩ := p
    unfold eventLoop
    split
    · exact ih _ (handleEvent_inv ev env w h)
    · exact h

theorem eventLoop_clusters (events : List (Event × Env)) (w : World) :
    (eventLoop events w).clusters = w.clusters := by
  induction events generalizing w with
  | nil => rfl
  | cons p rest ih =>
    obtain ⟨ev, env⟩ := p
    unfold eventLoop
    split
    · rw [ih, handleEvent_clusters]
    · rfl

theorem mainStart_of_ok (env : StartEnv) (cs : List Cluster) (h : loadConfig env = .ok cs) :
    (mainStart env).clusters = cs ∧ (mainStart env).selectedIndex = 0 ∧
      (mainStart env).status ≠ Status.panicked PanicReason.indexOutOfRange := by
  unfold mainStart
  rw [h]
  simp only []
  split
  · simp [termboxInit, initialWorld]
  · simp [termboxInit, initialWorld]

/-! ## Sample inputs -/

/-- The registry of the scenario `[{A, "echo hi"}, {B, "sleep 2"}]`. -/
def sampleClusters : List Cluster :=
  [{ Name := "A", Command := "echo hi" }, { Name := "B", Command := "sleep 2" }]

/-- A browsing state over `sampleClusters` with the cursor at `sel`. -/
def sampleWorld (sel : Int) : World :=
  { clusters := sampleClusters, selectedIndex := sel, isInit := true, trace := [],
    status := Status.running }

/-- A key event with the given key code and character. -/
def keyEvent (key : Nat) (ch : Char) : Event :=
  { Typ := EventType.EventKey, Key := key, Ch := ch, Err := "" }

/-- Answers of the outside on an 80-column terminal where the child exits with
status 0 and termbox starts again. -/
def sampleEnv : Env :=
  envOfChild (ChildOutcome.exited 0) 80 true true

/-! ## Navigation (C1, C2) -/

/-- C1: for a non-empty target list and a cursor with `0 ≤ cursor < len`, an
ArrowUp key event leaves the cursor unchanged at `0` and otherwise sets it to
`cursor - 1`; an ArrowDown key event leaves it unchanged at `len - 1` and
otherwise sets it to `cursor + 1`. The target list is untouched. -/
theorem C1_arrow_keys_clamp (w : World) (env : Env) (ev : Event)
    (hne : w.clusters ≠ []) (h0 : 0 ≤ w.selectedIndex)
    (h1 : w.selectedIndex < (w.clusters.length : Int)) :
    (ev.Key = KeyArrowUp →
      (handleKeyEvent ev env w).selectedIndex =
        (if w.selectedIndex = 0 then w.selectedIndex else w.selectedIndex - 1)) ∧
    (ev.Key = KeyArrowDown →
      (handleKeyEvent ev env w).selectedIndex =
        (if w.selectedIndex = (w.clusters.length : Int) - 1 then w.selectedIndex
         else w.selectedIndex + 1)) ∧
    (handleKeyEvent ev env w).clusters = w.clusters := by
  have _ := hne
  refine ⟨fun hk => ?_, fun hk => ?_, handleKeyEvent_clusters ev env w⟩
  · rw [handleKeyEvent_up ev env w hk]
    split <;> split <;> omega
  · rw [handleKeyEvent_down ev env w hk]
    split <;> split <;> omega

/-- C1 at the two-target registry with the cursor on the last target: ArrowUp
moves to `0`, ArrowDown stays. -/
theorem C1_arrow_keys_clamp_witness :
    sampleClusters ≠ [] ∧
    (handleKeyEvent (keyEvent KeyArrowUp '\x00') sampleEnv (sampleWorld 1)).selectedIndex = 0 ∧
    (handleKeyEvent (keyEvent KeyArrowDown '\x00') sampleEnv (sampleWorld 1)).selectedIndex
      = 1 :=
  have h := C1_arrow_keys_clamp (sampleWorld 1) sampleEnv
  ⟨by decide,
   (h (keyEvent KeyArrowUp '\x00') (by decide) (by decide) (by decide)).1 rfl,
   (h (keyEvent KeyArrowDown '\x00') (by decide) (by decide) (by decide)).2.1 rfl⟩

/-- C2: when the configuration loads a non-empty target list, every state that
`main` reaches through any finite sequence of events (arrow keys, Enter, any
other key, with any answers of the outside) has `0 ≤ selectedIndex < len(clusters)`,
the list is the loaded one, and the process never dies of an index out of range
at `clusters[selectedIndex]`. -/
theorem C2_cursor_in_range (env : StartEnv) (cs : List Cluster)
    (events : List (Event × Env)) (hload : loadConfig env = .ok cs) (hne : cs ≠ []) :
    0 ≤ (main env events).selectedIndex ∧
    (main env events).selectedIndex < ((main env events).clusters.length : Int) ∧
    (main env events).clusters = cs ∧
    (main env events).status ≠ Status.panicked PanicReason.indexOutOfRange := by
  obtain ⟨hc, hs, hp⟩ := mainStart_of_ok env cs hload
  have hlen : 0 < cs.length := List.length_pos.mpr hne
  have hinv : CursorInv (mainStart env) := by
    refine ⟨by rw [hs], ?_, hp⟩
    rw [hs, hc]; exact_mod_cast hlen
  obtain ⟨i0, i1, i2⟩ := eventLoop_inv events (mainStart env) hinv
  have hcl : (main env events).clusters = cs := by
    unfold main; rw [eventLoop_clusters, hc]
  exact ⟨i0, i1, hcl, i2⟩

/-- A start-up that loads `sampleClusters` on an 80-column terminal. -/
def sampleStartEnv : StartEnv :=
  { currentUser := .ok "/home/u",
    join := fun parts => String.intercalate "/" parts,
    readFile := fun _ => .ok "clusters: ...",
    unmarshal := fun _ => .ok { Clusters := sampleClusters },
    initErr := none,
    width := 80 }

/-- C2 on the two-target registry after Down, Down, Enter, Up. -/
theorem C2_cursor_in_range_witness :
    loadConfig sampleStartEnv = .ok sampleClusters ∧ sampleClusters ≠ [] ∧
    0 ≤ (main sampleStartEnv
      [(keyEvent KeyArrowDown '\x00', sampleEnv), (keyEvent KeyArrowDown '\x00', sampleEnv),
       (keyEvent KeyEnter '\x00', sampleEnv),
       (keyEvent KeyArrowUp '\x00', sampleEnv)]).selectedIndex :=
  ⟨rfl, by decide,
   (C2_cursor_in_range sampleStartEnv sampleClusters _ rfl (by decide)).1⟩

/-! ## Quit (C6) -/

/-- C6: for every state and every quit key event (`Key = Esc`, or `Ch = 'q'` or
`Ch = 'Q'` with none of the keys ArrowUp, ArrowDown, Enter set), `handleKeyEvent`
closes the termbox session and then exits with status 0, and does nothing else:
the cursor and the list are unchanged, no command runs, no menu is drawn. -/
theorem C6_quit_closes_and_exits (w : World) (env : Env) (ev : Event)
    (hquit : ev.Key = KeyEsc ∨
      ((ev.Ch = 'q' ∨ ev.Ch = 'Q') ∧ ev.Key ≠ KeyArrowUp ∧ ev.Key ≠ KeyArrowDown ∧
        ev.Key ≠ KeyEnter)) :
    handleKeyEvent ev env w =
      { w with isInit := false,
               trace := w.trace ++ [Effect.close, Effect.osExit 0],
               status := Status.exited 0 } := by
  rcases hquit with hk | ⟨hch, hu, hd, he⟩
  · have hu : ev.Key ≠ KeyArrowUp := by rw [hk]; decide
    have hd : ev.Key ≠ KeyArrowDown := by rw [hk]; decide
    have he : ev.Key ≠ KeyEnter := by rw [hk]; decide
    unfold handleKeyEvent
    rw [if_neg hu, if_neg hd, if_neg he, if_pos hk]
    simp [osExit, termboxClose]
  · unfold handleKeyEvent
    rw [if_neg hu, if_neg hd, if_neg he]
    split
    · simp [osExit, termboxClose]
    · unfold quitOnCh
      rw [if_pos hch]
      simp [osExit, termboxClose]

/-- C6 at the character event `q` on the two-target registry. -/
theorem C6_quit_closes_and_exits_witness :
    (handleKeyEvent (keyEvent 0 'q') sampleEnv (sampleWorld 1)).status = Status.exited 0 ∧
    (handleKeyEvent (keyEvent 0 'q') sampleEnv (sampleWorld 1)).trace
      = [Effect.close, Effect.osExit 0] ∧
    (handleKeyEvent (keyEvent 0 'q') sampleEnv (sampleWorld 1)).selectedIndex = 1 := by
  have h := C6_quit_closes_and_exits (sampleWorld 1) sampleEnv (keyEvent 0 'q')
    (Or.inr ⟨Or.inl rfl, by decide, by decide, by decide⟩)
  rw [h]
  exact ⟨rfl, rfl, rfl⟩

/-! ## Running a command (C4, C5, C8) -/

/-- The trace and the session after `executeCommand` when `clusters[selectedIndex]`
exists: close, run, the report, sleep, init. In the timeout branch the report is
the whole of `handleTimeout`, which sleeps and initialises by itself. -/
theorem executeCommand_eq (env : Env) (w : World) (c : Cluster)
    (hc : clusterAt w.clusters w.selectedIndex = some c) :
    executeCommand env w =
      { w with
        isInit :=
          (match env.runErr with
           | some _ => if env.deadlineExceeded then env.timeoutInitOk else false
           | none => false) || env.initOk,
        trace := w.trace ++ [Effect.close, Effect.runCmd c.Command] ++
          (match env.runErr with
           | some err =>
             if env.deadlineExceeded then
               [Effect.print timeoutMessage, Effect.sleep 2, Effect.init]
             else [Effect.print (failedMessage err)]
           | none => [Effect.print completedMessage]) ++
          [Effect.sleep 2, Effect.init] } := by
  unfold executeCommand
  simp only []
  have hc2 : clusterAt (termboxClose w).clusters (termboxClose w).selectedIndex = some c := hc
  rw [hc2]
  simp only []
  cases env.runErr with
  | none => simp [emit, termboxInit, termboxClose]
  | some err =>
    cases env.deadlineExceeded <;>
      simp [emit, termboxInit, termboxClose, handleTimeout]

/-- C5, as the code has it: in a browsing state with a non-empty target list
(cursor in range, process running), for every result of the child command (any
error of `cmd.Run()` or none, deadline exceeded or not) and every result of the
`termbox.Init()` calls, an Enter key event keeps the process running with the
target list and the cursor what they were, and its trace is the old one, then
`Close`, the command and its report, `Init`, and last the redrawn menu. The
termbox session is open afterwards exactly when an `Init` of the step succeeded:
the one that ends `executeCommand` or, on the timeout path, the one inside
`handleTimeout`; in particular it is open whenever the `Init` that ends
`executeCommand` succeeds. -/
theorem C5_enter_returns_to_browsing (w : World) (env : Env) (ev : Event)
    (h0 : 0 ≤ w.selectedIndex) (h1 : w.selectedIndex < (w.clusters.length : Int))
    (hrun : w.status = Status.running)
    (hk : ev.Key = KeyEnter) (hq : ev.Ch ≠ 'q') (hQ : ev.Ch ≠ 'Q') :
    (handleKeyEvent ev env w).isInit =
      ((env.runErr.isSome && env.deadlineExceeded && env.timeoutInitOk) || env.initOk) ∧
    (env.initOk = true → (handleKeyEvent ev env w).isInit = true) ∧
    (handleKeyEvent ev env w).status = Status.running ∧
    (handleKeyEvent ev env w).clusters = w.clusters ∧
    (handleKeyEvent ev env w).selectedIndex = w.selectedIndex ∧
    ∃ report : List Effect,
      (handleKeyEvent ev env w).trace =
        w.trace ++ [Effect.close] ++ report ++ [Effect.init] ++
          drawMenuEffects env.width w.clusters w.selectedIndex := by
  obtain ⟨c, hc⟩ := clusterAt_isSome w.clusters w.selectedIndex h0 h1
  have hu : ev.Key ≠ KeyArrowUp := by rw [hk]; decide
  have hd : ev.Key ≠ KeyArrowDown := by rw [hk]; decide
  have hs : (executeCommand env w).status = Status.running := by
    rw [executeCommand_status env w h0 h1, hrun]
  have hstep : handleKeyEvent ev env w = drawMenu env.width (executeCommand env w) := by
    unfold handleKeyEvent
    rw [if_neg hu, if_neg hd, if_pos hk]
    simp only []
    rw [hs]
    simp only []
    exact quitOnCh_of_ne ev _ hq hQ
  rw [hstep, executeCommand_eq env w c hc]
  refine ⟨?_, fun hinit => by simp [drawMenu, emit, hinit],
    by simp [drawMenu, emit, hrun], rfl, rfl, ?_⟩
  · cases env.runErr with
    | none => simp [drawMenu, emit]
    | some err => cases env.deadlineExceeded <;> simp [drawMenu, emit]
  · refine ⟨[Effect.runCmd c.Command] ++
          (match env.runErr with
           | some err =>
             if env.deadlineExceeded then
               [Effect.print timeoutMessage, Effect.sleep 2, Effect.init]
             else [Effect.print (failedMessage err)]
           | none => [Effect.print completedMessage]) ++ [Effect.sleep 2], ?_⟩
    simp [drawMenu, emit]

/-- C5 on the two-target registry, cursor on `B`, when the deadline kills the
child and only the last `Init` succeeds. -/
theorem C5_enter_returns_to_browsing_witness :
    (handleKeyEvent (keyEvent KeyEnter '\x00')
        (envOfChild ChildOutcome.deadlineKilled 80 false true) (sampleWorld 1)).isInit = true ∧
    (handleKeyEvent (keyEvent KeyEnter '\x00')
        (envOfChild ChildOutcome.deadlineKilled 80 false true) (sampleWorld 1)).selectedIndex
      = 1 :=
  have h := C5_enter_returns_to_browsing (sampleWorld 1)
    (envOfChild ChildOutcome.deadlineKilled 80 false true) (keyEvent KeyEnter '\x00')
    (by decide) (by decide) rfl rfl (by decide) (by decide)
  ⟨h.2.1 rfl, h.2.2.2.2.1⟩

/-- C5 fails as stated: browsing with the cursor on `A`, the child exits with
status 0, the `termbox.Init()` that ends `executeCommand` fails and its error is
dropped: the process goes on, the menu is redrawn, and no termbox session is
open. -/
theorem C5_counterexample :
    (sampleWorld 0).isInit = true ∧ (sampleWorld 0).status = Status.running ∧
    (handleKeyEvent (keyEvent KeyEnter '\x00')
        (envOfChild (ChildOutcome.exited 0) 80 true false) (sampleWorld 0)).isInit = false ∧
    (handleKeyEvent (keyEvent KeyEnter '\x00')
        (envOfChild (ChildOutcome.exited 0) 80 true false) (sampleWorld 0)).status
      = Status.running ∧
    (handleKeyEvent (keyEvent KeyEnter '\x00')
        (envOfChild (ChildOutcome.exited 0) 80 true false) (sampleWorld 0)).trace =
      [Effect.close, Effect.runCmd "echo hi", Effect.print completedMessage,
        Effect.sleep 2, Effect.init] ++ drawMenuEffects 80 sampleClusters 0 := by
  decide

/-- The failure line never reads like the completion line or the timeout line:
it starts with another character. -/
theorem failedMessage_ne (err : String) :
    failedMessage err ≠ completedMessage ∧ failedMessage err ≠ timeoutMessage := by
  have hhead : (failedMessage err).data.head? = some '执' := by
    unfold failedMessage
    rw [String.data_append, String.data_append]
    rfl
  constructor
  · intro h
    rw [h] at hhead
    exact absurd hhead (by decide)
  · intro h
    have hthird : (failedMessage err).data.get? 2 = some '命' := by
      unfold failedMessage
      rw [String.data_append, String.data_append]
      rfl
    rw [h] at hthird
    exact absurd hthird (by decide)

/-- C4, as the code has it: a child that is started and exits before the deadline
with status 0 makes `executeCommand` print the session-ended line; one that
exits with any other status makes it print the failure line with the text of
the exit error, which is neither the session-ended line nor the timeout line.
In both cases the trace is close, run, that one line, sleep, init. -/
theorem C4_exit_status_selects_report (w : World) (c : Cluster) (width : Int)
    (b1 b2 : Bool) (hc : clusterAt w.clusters w.selectedIndex = some c) :
    (executeCommand (envOfChild (ChildOutcome.exited 0) width b1 b2) w).trace =
      w.trace ++ [Effect.close, Effect.runCmd c.Command, Effect.print completedMessage,
        Effect.sleep 2, Effect.init] ∧
    ∀ n : Nat,
      (executeCommand (envOfChild (ChildOutcome.exited (n + 1)) width b1 b2) w).trace =
        w.trace ++ [Effect.close, Effect.runCmd c.Command,
          Effect.print (failedMessage ("exit status " ++ toString (n + 1))),
          Effect.sleep 2, Effect.init] ∧
      failedMessage ("exit status " ++ toString (n + 1)) ≠ completedMessage ∧
      failedMessage ("exit status " ++ toString (n + 1)) ≠ timeoutMessage := by
  constructor
  · rw [executeCommand_eq _ w c hc]
    simp [envOfChild, cmdRun]
  · intro n
    refine ⟨?_, failedMessage_ne _⟩
    rw [executeCommand_eq _ w c hc]
    simp [envOfChild, cmdRun]

/-- C4 on the two-target registry with the cursor on `A`. -/
theorem C4_exit_status_selects_report_witness :
    (executeCommand (envOfChild (ChildOutcome.exited 0) 80 true true) (sampleWorld 0)).trace =
      [Effect.close, Effect.runCmd "echo hi", Effect.print completedMessage,
        Effect.sleep 2, Effect.init] :=
  (C4_exit_status_selects_report (sampleWorld 0) { Name := "A", Command := "echo hi" }
    80 true true rfl).1

/-- C4 fails as stated: the child of `A` is started and exits with status 1
before the deadline, and `executeCommand` prints the failure line, not the
session-ended line. -/
theorem C4_counterexample :
    (executeCommand (envOfChild (ChildOutcome.exited 1) 80 true true) (sampleWorld 0)).trace =
      [Effect.close, Effect.runCmd "echo hi",
        Effect.print "执行命令失败: exit status 1\n", Effect.sleep 2, Effect.init] ∧
    Effect.print completedMessage ∉
      (executeCommand (envOfChild (ChildOutcome.exited 1) 80 true true) (sampleWorld 0)).trace := by
  decide

/-- A registry with the one target `{C, "sleep 4000"}`, browsing. -/
def timeoutWorld : World :=
  { clusters := [{ Name := "C", Command := "sleep 4000" }], selectedIndex := 0,
    isInit := true, trace := [], status := Status.running }

/-- C8, the code at a timeout: when the deadline kills the child, `executeCommand`
prints the timeout line, sleeps two seconds and calls `termbox.Init()` inside
`handleTimeout`, and then sleeps two seconds and calls `termbox.Init()` again:
two pauses and two acquisitions, where the completed run of the same target has
one of each. -/
theorem C8_timeout_pauses_and_inits_twice :
    (executeCommand (envOfChild ChildOutcome.deadlineKilled 80 true true) timeoutWorld).trace =
      [Effect.close, Effect.runCmd "sleep 4000", Effect.print timeoutMessage,
        Effect.sleep 2, Effect.init, Effect.sleep 2, Effect.init] ∧
    (executeCommand (envOfChild (ChildOutcome.exited 0) 80 true true) timeoutWorld).trace =
      [Effect.close, Effect.runCmd "sleep 4000", Effect.print completedMessage,
        Effect.sleep 2, Effect.init] := by
  decide

/-! ## Start-up (C3, C7) -/

/-- When `loadConfig` fails, `main` prints the diagnostic and returns: termbox is
never initialised, nothing is drawn, no event is handled. -/
theorem main_of_load_error (env : StartEnv) (events : List (Event × Env)) (err : String)
    (h : loadConfig env = .error err) :
    main env events =
      { initialWorld with
        trace := [Effect.print ("加载配置文件失败: " ++ err ++ "\n")],
        status := Status.returned } := by
  have hs : mainStart env =
      { initialWorld with
        trace := [Effect.print ("加载配置文件失败: " ++ err ++ "\n")],
        status := Status.returned } := by
    unfold mainStart
    rw [h]
    rfl
  unfold main
  rw [hs]
  cases events with
  | nil => rfl
  | cons p rest => rfl

/-- C3, as the code has it: `loadConfig` fails only when the user lookup, the
read or the parse fails, and then `main` only prints the diagnostic: it never
initialises termbox and never draws. Whenever lookup, read and parse succeed,
`loadConfig` succeeds and stores the parsed clusters, however many there are. So
a configuration that parses to zero clusters loads without error as the empty
list, and `main` goes on to initialise termbox and, when that succeeds, draws
the menu: the header and no target line. -/
theorem C3_empty_config_loads (env : StartEnv) (events : List (Event × Env)) :
    (∀ err, loadConfig env = .error err →
      ((env.currentUser = .error err) ∨
       (∃ homeDir e, env.currentUser = .ok homeDir ∧
          env.readFile (env.join [homeDir, ".s", "s.yaml"]) = .error e) ∨
       (∃ homeDir data e, env.currentUser = .ok homeDir ∧
          env.readFile (env.join [homeDir, ".s", "s.yaml"]) = .ok data ∧
          env.unmarshal data = .error e)) ∧
      (main env events).isInit = false ∧
      (main env events).trace = [Effect.print ("加载配置文件失败: " ++ err ++ "\n")]) ∧
    (∀ homeDir data config,
      env.currentUser = .ok homeDir →
      env.readFile (env.join [homeDir, ".s", "s.yaml"]) = .ok data →
      env.unmarshal data = .ok config →
      loadConfig env = .ok config.Clusters ∧
      (mainStart env).clusters = config.Clusters ∧
      (config.Clusters = [] → env.initErr = none →
        mainStart env =
          { initialWorld with
            isInit := true,
            trace := [Effect.init, Effect.clear] ++ drawHeader env.width ++ [Effect.flush] })) := by
  constructor
  · intro err h
    refine ⟨?_, ?_⟩
    · unfold loadConfig at h
      cases hu : env.currentUser with
      | error e0 =>
        rw [hu] at h
        simp only [] at h
        left
        injection h with h
        rw [h]
      | ok homeDir =>
        rw [hu] at h
        simp only [] at h
        right
        cases hr : env.readFile (env.join [homeDir, ".s", "s.yaml"]) with
        | error e1 => exact Or.inl ⟨homeDir, e1, rfl, hr⟩
        | ok data =>
          rw [hr] at h
          simp only [] at h
          cases hp : env.unmarshal data with
          | error e2 => exact Or.inr ⟨homeDir, data, e2, rfl, hr, hp⟩
          | ok config =>
            rw [hp] at h
            simp only [] at h
            cases h
    · rw [main_of_load_error env events err h]
      exact ⟨rfl, rfl⟩
  · intro homeDir data config hu hr hp
    have hl : loadConfig env = .ok config.Clusters := by
      unfold loadConfig
      rw [hu]
      simp only []
      rw [hr]
      simp only []
      rw [hp]
    refine ⟨hl, (mainStart_of_ok env config.Clusters hl).1, fun hcs hi => ?_⟩
    unfold mainStart
    rw [hl]
    simp only []
    rw [hi, hcs]
    simp [drawMenu, emit, termboxInit, initialWorld, drawMenuEffects, drawClusters]

/-- A start-up whose configuration file parses to zero clusters. -/
def emptyConfigEnv : StartEnv :=
  { currentUser := .ok "/home/u",
    join := fun parts => String.intercalate "/" parts,
    readFile := fun _ => .ok "clusters: []",
    unmarshal := fun _ => .ok { Clusters := [] },
    initErr := none,
    width := 80 }

/-- C3 at a configuration file with `clusters: []`. -/
theorem C3_empty_config_loads_witness :
    loadConfig emptyConfigEnv = .ok [] :=
  ((C3_empty_config_loads emptyConfigEnv []).2 "/home/u" "clusters: []" { Clusters := [] }
    rfl rfl rfl).1

/-- C3 fails as stated: the configuration parses to zero clusters, `loadConfig`
returns no error, and `main` initialises termbox and draws the menu. -/
theorem C3_counterexample :
    loadConfig emptyConfigEnv = .ok [] ∧
    (mainStart emptyConfigEnv).isInit = true ∧
    (mainStart emptyConfigEnv).status = Status.running ∧
    (mainStart emptyConfigEnv).trace =
      [Effect.init] ++ drawMenuEffects 80 [] 0 ∧
    Effect.clear ∈ (mainStart emptyConfigEnv).trace :=
  ⟨rfl, rfl, rfl, rfl, by decide⟩

/-- C7, as the code has it: when loading the configuration fails, `main` prints
the diagnostic and returns, so the process ends with exit status 0, without
having initialised termbox; when the configuration loads and `termbox.Init()`
fails, `main` panics and the process ends with the non-zero exit status 2. -/
theorem C7_exit_status_at_startup (env : StartEnv) (events : List (Event × Env)) :
    (∀ err, loadConfig env = .error err →
      (main env events).status = Status.returned ∧
      (main env events).status.exitCode = some 0 ∧
      Effect.init ∉ (main env events).trace) ∧
    (∀ cs err, loadConfig env = .ok cs → env.initErr = some err →
      (main env events).status = Status.panicked (PanicReason.initError err) ∧
      (main env events).status.exitCode = some 2 ∧
      (main env events).isInit = false) := by
  constructor
  · intro err h
    rw [main_of_load_error env events err h]
    exact ⟨rfl, rfl, by simp⟩
  · intro cs err hl hi
    have hs : mainStart env =
        { termboxInit false { initialWorld with clusters := cs } with
          status := Status.panicked (PanicReason.initError err) } := by
      unfold mainStart
      rw [hl]
      simp only []
      rw [hi]
    have hm : main env events = mainStart env := by
      unfold main
      rw [hs]
      cases events with
      | nil => rfl
      | cons p rest => rfl
    rw [hm, hs]
    exact ⟨rfl, rfl, rfl⟩

/-- A start-up whose configuration file does not exist. -/
def missingFileEnv : StartEnv :=
  { currentUser := .ok "/home/u",
    join := fun parts => String.intercalate "/" parts,
    readFile := fun path => .error ("open " ++ path ++ ": no such file or directory"),
    unmarshal := fun _ => .ok { Clusters := [] },
    initErr := none,
    width := 80 }

/-- C7 at a missing configuration file, and at a terminal that does not start. -/
theorem C7_exit_status_at_startup_witness :
    (main missingFileEnv []).status.exitCode = some 0 ∧
    (main { sampleStartEnv with initErr := some "open /dev/tty: no such device" }
      []).status.exitCode = some 2 :=
  ⟨((C7_exit_status_at_startup missingFileEnv []).1 _ rfl).2.1,
   ((C7_exit_status_at_startup
      { sampleStartEnv with initErr := some "open /dev/tty: no such device" } []).2
      sampleClusters _ rfl rfl).2.1⟩

/-- C7 fails as stated: the configuration file is missing, `main` prints the
diagnostic and returns, and the exit status of the process is 0. -/
theorem C7_counterexample :
    (∃ err, loadConfig missingFileEnv = .error err) ∧
    (main missingFileEnv []).status = Status.returned ∧
    (main missingFileEnv []).status.exitCode = some 0 ∧
    (main missingFileEnv []).trace =
      [Effect.print ("加载配置文件失败: 读取配置文件 /home/u/.s/s.yaml 失败: " ++
        "open /home/u/.s/s.yaml: no such file or directory\n")] :=
  ⟨⟨_, rfl⟩, rfl, rfl, by decide⟩

/-! ## Drawing the list (C9) -/

/-- Whether an outside call sets a cell on row `y`. -/
def onRow (y : Int) : Effect → Bool
  | Effect.setCell _ y1 _ _ _ => decide (y1 = y)
  | _ => false

theorem filter_map_setCell_same (l : List (Nat × Char)) (x y : Int) (fg bg : Attribute) :
    (l.map fun p => Effect.setCell (x + (p.1 : Int)) y p.2 fg bg).filter (onRow y) =
      l.map fun p => Effect.setCell (x + (p.1 : Int)) y p.2 fg bg := by
  induction l with
  | nil => rfl
  | cons p rest ih =>
    rw [List.map_cons, List.filter_cons_of_pos (by simp [onRow]), ih]

theorem filter_map_setCell_other (l : List (Nat × Char)) (x y y1 : Int) (fg bg : Attribute)
    (h : y ≠ y1) :
    (l.map fun p => Effect.setCell (x + (p.1 : Int)) y p.2 fg bg).filter (onRow y1) = [] := by
  induction l with
  | nil => rfl
  | cons p rest ih =>
    rw [List.map_cons, List.filter_cons_of_neg (by simp [onRow, h])]
    exact ih

theorem filter_printLine_same (x y : Int) (text : String) (selected : Bool) :
    (printLine x y text selected).filter (onRow y) = printLine x y text selected :=
  filter_map_setCell_same _ x y _ _

theorem filter_printLine_other (x y y1 : Int) (text : String) (selected : Bool)
    (h : y ≠ y1) : (printLine x y text selected).filter (onRow y1) = [] :=
  filter_map_setCell_other _ x y y1 _ _ h

theorem filter_printCenteredLine_other (width y y1 : Int) (text : String)
    (fg bg : Attribute) (h : y ≠ y1) :
    (printCenteredLine width y text fg bg).filter (onRow y1) = [] :=
  filter_map_setCell_other _ _ y y1 fg bg h

/-- The header touches rows 1 and 2 only. -/
theorem filter_drawHeader (width y : Int) (h : 3 ≤ y) :
    (drawHeader width).filter (onRow y) = [] := by
  unfold drawHeader
  rw [List.filter_append, filter_printCenteredLine_other _ 1 y _ _ _ (by omega),
    filter_printCenteredLine_other _ 2 y _ _ _ (by omega)]
  rfl

/-- The loop from index `i` on touches no row above `3 + i`. -/
theorem filter_drawClusters_above (sel : Int) (cs : List Cluster) (i : Nat) (y : Int)
    (h : y < 3 + (i : Int)) : (drawClusters sel cs i).filter (onRow y) = [] := by
  induction cs generalizing i with
  | nil => rfl
  | cons c rest ih =>
    unfold drawClusters
    rw [List.filter_append, filter_printLine_other _ _ y _ _ (by omega),
      ih (i + 1) (by push_cast; omega)]
    rfl

/-- The loop from index `i` on touches no row from `3 + i + len` on. -/
theorem filter_drawClusters_below (sel : Int) (cs : List Cluster) (i : Nat) (y : Int)
    (h : 3 + (i : Int) + (cs.length : Int) ≤ y) :
    (drawClusters sel cs i).filter (onRow y) = [] := by
  induction cs generalizing i with
  | nil => rfl
  | cons c rest ih =>
    have hlen : ((c :: rest).length : Int) = (rest.length : Int) + 1 := by simp
    rw [hlen] at h
    unfold drawClusters
    rw [List.filter_append, filter_printLine_other _ _ y _ _ (by omega),
      ih (i + 1) (by push_cast; omega)]
    rfl

/-- Row `3 + (i + j)` of the loop from index `i` on is the line of its `j`-th
cluster. -/
theorem filter_drawClusters_row (sel : Int) (cs : List Cluster) (i j : Nat)
    (hj : j < cs.length) :
    (drawClusters sel cs i).filter (onRow (3 + ((i + j : Nat) : Int))) =
      printLine 2 (3 + ((i + j : Nat) : Int)) (cs.get ⟨j, hj⟩).Name
        (decide (((i + j : Nat) : Int) = sel)) := by
  induction cs generalizing i j with
  | nil => exact absurd hj (Nat.not_lt_zero j)
  | cons c rest ih =>
    unfold drawClusters
    rw [List.filter_append]
    cases j with
    | zero =>
      rw [Nat.add_zero, filter_printLine_same,
        filter_drawClusters_above sel rest (i + 1) _ (by push_cast; omega)]
      simp
    | succ k =>
      have hk : k < rest.length := Nat.lt_of_succ_lt_succ hj
      have hidx : i + (k + 1) = (i + 1) + k := by omega
      rw [filter_printLine_other _ _ _ _ _ (by push_cast; omega), hidx, ih (i + 1) k hk]
      simp

/-- Every cell of `printLine` is on its row and in the colour pair of the flag. -/
theorem mem_printLine (x y : Int) (text : String) (selected : Bool) (e : Effect)
    (h : e ∈ printLine x y text selected) :
    ∃ col ch, e = Effect.setCell col y ch
      (if selected then Attribute.ColorWhite else Attribute.ColorBlack)
      (if selected then Attribute.ColorBlue else Attribute.ColorLightGray) := by
  unfold printLine at h
  simp only [List.mem_map] at h
  obtain ⟨p, _, hp⟩ := h
  exact ⟨x + (p.1 : Int), p.2, hp.symm⟩

theorem filter_drawMenuEffects (width : Int) (cs : List Cluster) (sel y : Int)
    (h : 3 ≤ y) :
    (drawMenuEffects width cs sel).filter (onRow y) =
      (drawClusters sel cs 0).filter (onRow y) := by
  unfold drawMenuEffects
  rw [List.filter_append, List.filter_append, List.filter_append,
    filter_drawHeader width y h]
  simp [onRow]

theorem rangeString_length (cs : List Char) (off : Nat) :
    (rangeString cs off).length = cs.length := by
  induction cs generalizing off with
  | nil => rfl
  | cons c rest ih => simp [rangeString, ih]

/-- The `k`-th pair of the `range` loop: the byte length of the first `k`
characters, and the `k`-th character. -/
theorem rangeString_getElem? (cs : List Char) (off k : Nat) (hk : k < cs.length) :
    (rangeString cs off)[k]? = some (off + goLen (cs.take k), cs.get ⟨k, hk⟩) := by
  induction cs generalizing off k with
  | nil => exact absurd hk (Nat.not_lt_zero k)
  | cons c rest ih =>
    cases k with
    | zero => simp [rangeString, goLen]
    | succ j =>
      have hj : j < rest.length := Nat.lt_of_succ_lt_succ hk
      unfold rangeString
      rw [List.getElem?_cons_succ, ih (off + c.utf8Size) j hj]
      simp [goLen, Nat.add_assoc]

/-- The cells of `printLine`, one per character of the text. -/
theorem printLine_length (x y : Int) (text : String) (selected : Bool) :
    (printLine x y text selected).length = text.data.length := by
  unfold printLine
  simp [rangeString_length]

/-- The `k`-th cell of `printLine`: the `k`-th character of the text, at column
`x` plus the number of bytes of the characters before it. -/
theorem printLine_getElem? (x y : Int) (text : String) (selected : Bool) (k : Nat)
    (hk : k < text.data.length) :
    (printLine x y text selected)[k]? =
      some (Effect.setCell (x + (((text.data.take k).map Char.utf8Size).sum : Nat)) y
        (text.data.get ⟨k, hk⟩)
        (if selected then Attribute.ColorWhite else Attribute.ColorBlack)
        (if selected then Attribute.ColorBlue else Attribute.ColorLightGray)) := by
  unfold printLine
  simp only [List.getElem?_map, rangeString_getElem? text.data 0 k hk, Option.map_some',
    Nat.zero_add, goLen]

/-- The header sets no cell with a blue background. -/
theorem not_mem_drawHeader (width col y : Int) (ch : Char) (fg : Attribute) :
    Effect.setCell col y ch fg Attribute.ColorBlue ∉ drawHeader width := by
  unfold drawHeader printCenteredLine
  simp

/-- Every cell of the loop belongs to the line of one of its clusters. -/
theorem mem_drawClusters (sel : Int) (cs : List Cluster) (i : Nat) (e : Effect)
    (h : e ∈ drawClusters sel cs i) :
    ∃ (j : Nat) (hj : j < cs.length),
      e ∈ printLine 2 (3 + ((i + j : Nat) : Int)) (cs.get ⟨j, hj⟩).Name
        (decide (((i + j : Nat) : Int) = sel)) := by
  induction cs generalizing i with
  | nil => simp [drawClusters] at h
  | cons c rest ih =>
    unfold drawClusters at h
    rcases List.mem_append.mp h with h | h
    · exact ⟨0, Nat.succ_pos _, by simpa using h⟩
    · obtain ⟨j, hj, hm⟩ := ih (i + 1) h
      refine ⟨j + 1, Nat.succ_lt_succ hj, ?_⟩
      have hidx : i + 1 + j = i + (j + 1) := by omega
      rw [hidx] at hm
      simpa using hm

/-- C9, as the code has it: for every target list and cursor with
`0 ≤ cursor < len`, the cells that `drawMenu` sets on row `3 + i` are exactly the
characters of the name of target `i`, in order, the `k`-th at column 2 plus the
number of bytes of the characters before it, all in white on blue when
`i = cursor` and all in black on light gray otherwise. No cell is set below the
last target. The white-on-blue pair occurs on row `3 + cursor` and nowhere else,
and it does occur there when the name at the cursor is not empty; a target with
an empty name has no cell. -/
theorem C9_one_line_per_target (width : Int) (cs : List Cluster) (sel : Int)
    (h0 : 0 ≤ sel) (h1 : sel < (cs.length : Int)) :
    (∀ (i : Nat) (hi : i < cs.length),
      ((drawMenuEffects width cs sel).filter (onRow (3 + (i : Int)))).length =
        (cs.get ⟨i, hi⟩).Name.data.length ∧
      (∀ (k : Nat) (hk : k < (cs.get ⟨i, hi⟩).Name.data.length),
        ((drawMenuEffects width cs sel).filter (onRow (3 + (i : Int))))[k]? =
          some (Effect.setCell
            (2 + ((((cs.get ⟨i, hi⟩).Name.data.take k).map Char.utf8Size).sum : Nat))
            (3 + (i : Int)) ((cs.get ⟨i, hi⟩).Name.data.get ⟨k, hk⟩)
            (if (i : Int) = sel then Attribute.ColorWhite else Attribute.ColorBlack)
            (if (i : Int) = sel then Attribute.ColorBlue else Attribute.ColorLightGray))) ∧
      ∀ col ch fg bg,
        Effect.setCell col (3 + (i : Int)) ch fg bg ∈ drawMenuEffects width cs sel →
        ((fg = Attribute.ColorWhite ∧ bg = Attribute.ColorBlue) ↔ (i : Int) = sel) ∧
        ((fg = Attribute.ColorBlack ∧ bg = Attribute.ColorLightGray) ↔ (i : Int) ≠ sel)) ∧
    (∀ y : Int, 3 + (cs.length : Int) ≤ y →
      (drawMenuEffects width cs sel).filter (onRow y) = []) ∧
    (∀ col y ch,
      Effect.setCell col y ch Attribute.ColorWhite Attribute.ColorBlue ∈
        drawMenuEffects width cs sel → y = 3 + sel) ∧
    (∀ hs : sel.toNat < cs.length, (cs.get ⟨sel.toNat, hs⟩).Name.data ≠ [] →
      ∃ col ch, Effect.setCell col (3 + sel) ch Attribute.ColorWhite Attribute.ColorBlue ∈
        drawMenuEffects width cs sel) := by
  have hrow : ∀ (i : Nat) (hi : i < cs.length),
      (drawMenuEffects width cs sel).filter (onRow (3 + (i : Int))) =
        printLine 2 (3 + (i : Int)) (cs.get ⟨i, hi⟩).Name (decide ((i : Int) = sel)) := by
    intro i hi
    rw [filter_drawMenuEffects width cs sel _ (by omega)]
    have h := filter_drawClusters_row sel cs 0 i hi
    simp only [Nat.zero_add] at h
    exact h
  refine ⟨fun i hi => ⟨?_, ?_, ?_⟩, ?_, ?_, ?_⟩
  · rw [hrow i hi, printLine_length]
  · intro k hk
    rw [hrow i hi, printLine_getElem? _ _ _ _ k hk]
    by_cases hsel : (i : Int) = sel <;> simp [hsel]
  · intro col ch fg bg hmem
    have hf : Effect.setCell col (3 + (i : Int)) ch fg bg ∈
        (drawMenuEffects width cs sel).filter (onRow (3 + (i : Int))) :=
      List.mem_filter.mpr ⟨hmem, by simp [onRow]⟩
    rw [hrow i hi] at hf
    obtain ⟨col1, ch1, he⟩ := mem_printLine _ _ _ _ _ hf
    injection he with _ _ _ hfg hbg
    by_cases hsel : (i : Int) = sel
    · simp only [hsel, decide_True, if_true] at hfg hbg
      simp [hfg, hbg, hsel]
    · simp only [hsel, decide_False] at hfg hbg
      simp [hfg, hbg, hsel]
  · intro y hy
    rw [filter_drawMenuEffects width cs sel y (by omega)]
    exact filter_drawClusters_below sel cs 0 y (by push_cast; omega)
  · intro col y ch hmem
    unfold drawMenuEffects at hmem
    simp only [List.mem_append, List.mem_singleton] at hmem
    rcases hmem with ((h | h) | h) | h
    · cases h
    · exact absurd h (not_mem_drawHeader width col y ch _)
    · obtain ⟨j, hj, hm⟩ := mem_drawClusters sel cs 0 _ h
      simp only [Nat.zero_add] at hm
      obtain ⟨col1, ch1, he⟩ := mem_printLine _ _ _ _ _ hm
      injection he with _ hy _ hfg _
      by_cases hsel : (j : Int) = sel
      · rw [hy, hsel]
      · simp [hsel] at hfg
    · cases h
  · intro hs hne
    have hpos : 0 < (cs.get ⟨sel.toNat, hs⟩).Name.data.length := List.length_pos.mpr hne
    have hcast : ((sel.toNat : Nat) : Int) = sel := Int.toNat_of_nonneg h0
    have hcell := printLine_getElem? 2 (3 + ((sel.toNat : Nat) : Int))
      (cs.get ⟨sel.toNat, hs⟩).Name (decide (((sel.toNat : Nat) : Int) = sel)) 0 hpos
    have hmem := List.getElem?_mem hcell
    rw [← hrow sel.toNat hs] at hmem
    have hin := (List.mem_filter.mp hmem).1
    simp only [hcast, decide_True, if_true] at hin
    exact ⟨_, _, hin⟩

/-- C9 on the two-target registry with the cursor on `B`: row 4 has one cell,
`B` at column 2 in white on blue, and row 3 has one cell. -/
theorem C9_one_line_per_target_witness :
    ((drawMenuEffects 80 sampleClusters 1).filter (onRow 4)).length = 1 ∧
    ((drawMenuEffects 80 sampleClusters 1).filter (onRow 3)).length = 1 ∧
    ∃ col ch, Effect.setCell col 4 ch Attribute.ColorWhite Attribute.ColorBlue ∈
      drawMenuEffects 80 sampleClusters 1 :=
  have h := C9_one_line_per_target 80 sampleClusters 1 (by decide) (by decide)
  ⟨(h.1 1 (by decide)).1, (h.1 0 (by decide)).1, h.2.2.2 (by decide) (by decide)⟩

/-- A registry whose first target has an empty name. -/
def emptyNameClusters : List Cluster :=
  [{ Name := "", Command := "echo hi" }, { Name := "B", Command := "sleep 2" }]

/-- Whether an outside call sets a cell in white on blue. -/
def isSelectedCell : Effect → Bool
  | Effect.setCell _ _ _ Attribute.ColorWhite Attribute.ColorBlue => true
  | _ => false

/-- C9 fails as stated: with the cursor on a target whose name is empty,
`drawMenu` sets no cell in white on blue, so no target line is marked as
selected; the only target cell is `B` on row 4, in black on light gray. -/
theorem C9_counterexample :
    (0 : Int) < (emptyNameClusters.length : Int) ∧
    (drawMenuEffects 80 emptyNameClusters 0).filter isSelectedCell = [] ∧
    (drawMenuEffects 80 emptyNameClusters 0).filter (onRow 3) = [] ∧
    (drawMenuEffects 80 emptyNameClusters 0).filter (onRow 4) =
      [Effect.setCell 2 4 'B' Attribute.ColorBlack Attribute.ColorLightGray] := by
  decide

/-! ## Centering (C10) -/

/-- The layout of the specification: a text of `n` characters on a terminal of
width `w` has its `k`-th character at column `(w - n) / 2 + k` of row `y`. -/
def centeredCells (width y : Int) (text : String) (fg bg : Attribute) : List Effect :=
  (text.data.enumFrom 0).map fun p =>
    Effect.setCell ((width - (text.data.length : Int)) / 2 + (p.1 : Int)) y p.2 fg bg

/-- On single-byte characters byte offsets are character positions. -/
theorem rangeString_ascii (cs : List Char) (off : Nat) (h : ∀ c ∈ cs, c.utf8Size = 1) :
    rangeString cs off = cs.enumFrom off := by
  induction cs generalizing off with
  | nil => rfl
  | cons c rest ih =>
    have hc : c.utf8Size = 1 := h c (List.mem_cons_self c rest)
    unfold rangeString
    rw [hc, ih (off + 1) (fun d hd => h d (List.mem_cons_of_mem c hd)), List.enumFrom_cons]

theorem goLen_ascii (cs : List Char) (h : ∀ c ∈ cs, c.utf8Size = 1) :
    goLen cs = cs.length := by
  induction cs with
  | nil => rfl
  | cons c rest ih =>
    have hc : c.utf8Size = 1 := h c (List.mem_cons_self c rest)
    have hr := ih (fun d hd => h d (List.mem_cons_of_mem c hd))
    unfold goLen at hr ⊢
    simp [hc, hr]
    omega

/-- Every byte offset of the `range` loop lies inside the byte length of the
text. -/
theorem rangeString_bounds (cs : List Char) (off : Nat) (p : Nat × Char)
    (h : p ∈ rangeString cs off) : off ≤ p.1 ∧ p.1 < off + goLen cs := by
  induction cs generalizing off with
  | nil => simp [rangeString] at h
  | cons c rest ih =>
    have hpos := Char.utf8Size_pos c
    have hlen : goLen (c :: rest) = c.utf8Size + goLen rest := by simp [goLen]
    unfold rangeString at h
    rcases List.mem_cons.mp h with h | h
    · subst h
      simp only
      omega
    · have := ih (off + c.utf8Size) h
      omega

/-- C10, as the code has it: `printCenteredLine` sets one cell per character,
the `k`-th at column `(w - B) / 2 + b` of the row, where `B` is the number of
bytes of the UTF-8 encoding of the text and `b` the number of bytes of its first
`k` characters. When `B ≤ w` all cells lie in the block of `B` columns that
starts at `(w - B) / 2`, whose left and right margins differ by at most one.
For a text of `n` one-byte (ASCII) characters with `n ≤ w` the `k`-th character
is at column `(w - n) / 2 + k`: `n` contiguous columns, the left margin
`(w - n) / 2` and the right margin differing by at most one. -/
theorem C10_centered_by_bytes (width y : Int) (text : String) (fg bg : Attribute) :
    (printCenteredLine width y text fg bg).length = text.data.length ∧
    (∀ (k : Nat) (hk : k < text.data.length),
      (printCenteredLine width y text fg bg)[k]? =
        some (Effect.setCell
          (Int.tdiv (width - (goLen text.data : Int)) 2 + (goLen (text.data.take k) : Int))
          y (text.data.get ⟨k, hk⟩) fg bg)) ∧
    ((goLen text.data : Int) ≤ width →
      (∀ e ∈ printCenteredLine width y text fg bg, ∃ col ch,
        e = Effect.setCell col y ch fg bg ∧
        (width - (goLen text.data : Int)) / 2 ≤ col ∧
        col < (width - (goLen text.data : Int)) / 2 + (goLen text.data : Int)) ∧
      0 ≤ (width - (goLen text.data : Int)) / 2 ∧
      (width - (goLen text.data : Int)) / 2 ≤
        width - ((width - (goLen text.data : Int)) / 2 + (goLen text.data : Int)) ∧
      width - ((width - (goLen text.data : Int)) / 2 + (goLen text.data : Int)) ≤
        (width - (goLen text.data : Int)) / 2 + 1) ∧
    ((∀ c ∈ text.data, c.utf8Size = 1) → (text.data.length : Int) ≤ width →
      printCenteredLine width y text fg bg = centeredCells width y text fg bg ∧
      0 ≤ (width - (text.data.length : Int)) / 2 ∧
      (width - (text.data.length : Int)) / 2 ≤
        width - ((width - (text.data.length : Int)) / 2 + (text.data.length : Int)) ∧
      width - ((width - (text.data.length : Int)) / 2 + (text.data.length : Int)) ≤
        (width - (text.data.length : Int)) / 2 + 1) := by
  refine ⟨?_, ?_, ?_, ?_⟩
  · unfold printCenteredLine
    simp [rangeString_length]
  · intro k hk
    unfold printCenteredLine
    simp only [List.getElem?_map, rangeString_getElem? text.data 0 k hk, Option.map_some',
      Nat.zero_add]
  · intro hle
    refine ⟨?_, by omega, by omega, by omega⟩
    intro e he
    unfold printCenteredLine at he
    simp only [List.mem_map] at he
    obtain ⟨p, hp, rfl⟩ := he
    obtain ⟨_, hb⟩ := rangeString_bounds text.data 0 p hp
    rw [Int.tdiv_eq_ediv (by omega) (by decide)]
    exact ⟨_, _, rfl, by omega, by omega⟩
  · intro hascii hle
    refine ⟨?_, by omega, by omega, by omega⟩
    unfold printCenteredLine centeredCells
    simp only []
    rw [rangeString_ascii text.data 0 hascii, goLen_ascii text.data hascii,
      Int.tdiv_eq_ediv (by omega) (by decide)]

/-- C10 at the ASCII text `Esc` on an 80-column terminal: columns 38, 39, 40. -/
theorem C10_centered_by_bytes_witness :
    printCenteredLine 80 2 "Esc" Attribute.ColorGreen Attribute.ColorDefault =
      centeredCells 80 2 "Esc" Attribute.ColorGreen Attribute.ColorDefault :=
  ((C10_centered_by_bytes 80 2 "Esc" Attribute.ColorGreen Attribute.ColorDefault).2.2.2
    (by decide) (by decide)).1

/-- C10 fails as stated: on an 80-column terminal the title of the program, 6
characters in 18 bytes, is set at columns 31, 34, 37, 40, 43, 46, while the
stated layout puts it at columns 37 to 42. -/
theorem C10_counterexample :
    (headerText.data.length : Int) ≤ 80 ∧
    printCenteredLine 80 1 headerText Attribute.ColorCyan Attribute.ColorDefault =
      [Effect.setCell 31 1 '集' Attribute.ColorCyan Attribute.ColorDefault,
       Effect.setCell 34 1 '群' Attribute.ColorCyan Attribute.ColorDefault,
       Effect.setCell 37 1 '切' Attribute.ColorCyan Attribute.ColorDefault,
       Effect.setCell 40 1 '换' Attribute.ColorCyan Attribute.ColorDefault,
       Effect.setCell 43 1 '工' Attribute.ColorCyan Attribute.ColorDefault,
       Effect.setCell 46 1 '具' Attribute.ColorCyan Attribute.ColorDefault] ∧
    centeredCells 80 1 headerText Attribute.ColorCyan Attribute.ColorDefault =
      [Effect.setCell 37 1 '集' Attribute.ColorCyan Attribute.ColorDefault,
       Effect.setCell 38 1 '群' Attribute.ColorCyan Attribute.ColorDefault,
       Effect.setCell 39 1 '切' Attribute.ColorCyan Attribute.ColorDefault,
       Effect.setCell 40 1 '换' Attribute.ColorCyan Attribute.ColorDefault,
       Effect.setCell 41 1 '工' Attribute.ColorCyan Attribute.ColorDefault,
       Effect.setCell 42 1 '具' Attribute.ColorCyan Attribute.ColorDefault] ∧
    printCenteredLine 80 1 headerText Attribute.ColorCyan Attribute.ColorDefault ≠
      centeredCells 80 1 headerText Attribute.ColorCyan Attribute.ColorDefault := by
  decide

end Bastion
